import Mathlib

/-!
Verification of the py-geojson object model (`geojson.py`).

JSON values are embedded as the inductive type `JVal`; Python dicts are
association lists `List (String × JVal)` with first-binding-wins lookup,
matching dict semantics.  Fallible Python code (raising exceptions) is
embedded as `Except PyError`.
-/

/-- A JSON value: Python's `None`/`bool`/`int`/`str`/`list`/`dict` universe
as it occurs in this library. -/
inductive JVal where
  | null : JVal
  | bool : Bool → JVal
  | num : Int → JVal
  | str : String → JVal
  | arr : List JVal → JVal
  | obj : List (String × JVal) → JVal
deriving Repr

/-- A raw JSON object (Python dict) as an association list. -/
abbrev RawObj := List (String × JVal)

/-- Python truthiness on the `JVal` universe: `None`, `False`, `0`, `""`,
`[]` and `{}` are falsy, everything else truthy. -/
def truthy : JVal → Bool
  | .null => false
  | .bool b => b
  | .num n => n != 0
  | .str s => !(s == "")
  | .arr xs => !xs.isEmpty
  | .obj kvs => !kvs.isEmpty

/-- `True` exactly on `JVal.null` (Python `value is None`). -/
def isNull : JVal → Bool
  | .null => true
  | _ => false

/-- The exceptions the source can raise, by kind and message payload. -/
inductive PyError where
  | typeError (msg : String)
  | valueError (msg : String)
  | keyError (msg : String)
  | indexError (msg : String)
  | attributeError (attr : String)
  | featureException (msg : String)
  | geoJSONException (msg : String)
deriving Repr, DecidableEq

/-- `_clean(value)`: for a dict, drop `None`-valued entries and clean the
remaining values recursively; any other value passes through unchanged. -/
def _clean : JVal → JVal
  | .obj kvs => .obj (cleanEntries kvs)
  | v => v
where
  /-- The dict comprehension `{ k: _clean(v) for k, v in value.items() if v is not None }`. -/
  cleanEntries : List (String × JVal) → List (String × JVal)
    | [] => []
    | (k, v) :: t => if isNull v then cleanEntries t else (k, _clean v) :: cleanEntries t

/-- `compact_options(**kwargs)`: keep exactly the keyword arguments whose
value is not `None`, cleaning each kept value with `_clean`. -/
def compact_options (kwargs : List (String × JVal)) : List (String × JVal) :=
  kwargs.filterMap (fun kv => if isNull kv.2 then none else some (kv.1, _clean kv.2))

/-- Python `base[key] = value` on a dict: overwrite the first binding of
`key` if present, otherwise append a new binding. -/
def setKey : List (String × JVal) → String → JVal → List (String × JVal)
  | [], k, v => [(k, v)]
  | (k0, v0) :: t, k, v => if k0 == k then (k, v) :: t else (k0, v0) :: setKey t k v

/-- `add_not_empty(base, key, value)`: bind `key` to `value` in `base` iff
`value` is truthy; otherwise return `base` unchanged. -/
def add_not_empty (base : RawObj) (key : String) (value : JVal) : RawObj :=
  if truthy value then setKey base key value else base

/-! ## Feature model -/

/-- The concrete Python classes of the feature hierarchy. -/
inductive PyClass where
  | feature
  | multiFeature
  | point
  | multiPoint
  | lineString
  | multiLineString
  | polygon
  | multiPolygon
  | geometryCollection
deriving Repr, DecidableEq

/-- The ancestors (reflexive) of each class in the Python hierarchy. -/
def classAncestors : PyClass → List PyClass
  | .feature => [.feature]
  | .multiFeature => [.multiFeature, .feature]
  | .point => [.point, .feature]
  | .lineString => [.lineString, .feature]
  | .polygon => [.polygon, .feature]
  | .multiPoint => [.multiPoint, .multiFeature, .feature]
  | .multiLineString => [.multiLineString, .multiFeature, .feature]
  | .multiPolygon => [.multiPolygon, .multiFeature, .feature]
  | .geometryCollection => [.geometryCollection, .multiFeature, .feature]

/-- Whether an instance of class `c` is an instance of class `d`. -/
def pyIsSubclass (c d : PyClass) : Bool := (classAncestors c).contains d

/-! The string constants of the `FeatureType` holder class. -/

namespace FeatureType

def POINT : String := "Point"

def MULTI_POINT : String := "MultiPoint"

def LINE_STRING : String := "LineString"

def MULTI_LINE_STRING : String := "MultiLineString"

def POLYGON : String := "Polygon"

def MULTI_POLYGON : String := "MultiPolygon"

def GEOMETRY_COLLECTION : String := "GeometryCollection"

end FeatureType

/-- The runtime values that feature attributes get compared against in the
source: strings, an instance of the `FeatureType` class, or a built-in
function object (such as the global `id`). -/
inductive PyVal where
  | str (s : String)
  | ftInst
  | builtinFn (nm : String)
deriving Repr, DecidableEq

/-- Python `==` on the `PyVal` universe: values of different types compare
unequal (neither side defines a cross-type `__eq__`). -/
def pyEq : PyVal → PyVal → Bool
  | .str a, .str b => a == b
  | .builtinFn a, .builtinFn b => a == b
  | .ftInst, .ftInst => true
  | _, _ => false

/-- The second argument handed to `isinstance`: either an actual class
object, or (as in `MultiFeature.add`) a plain string. -/
inductive IsinstanceArg where
  | pyCls (c : PyClass)
  | pyStr (s : String)
deriving Repr, DecidableEq

/-- CPython `isinstance(obj, arg)`: raises a `TypeError` when `arg` is not
a class (in particular when it is a string), otherwise tests the class
hierarchy. -/
def pyIsinstance (objCls : PyClass) (arg : IsinstanceArg) : Except PyError Bool :=
  match arg with
  | .pyStr _ => .error (.typeError "isinstance() arg 2 must be a type, a tuple of types, or a union")
  | .pyCls c => .ok (pyIsSubclass objCls c)

/-- The attribute state shared by every `Feature` instance: `self.id`,
`self.feature_type`, `self.properties` and `self.geometry`.  The `id` is
the `uuid4().hex` drawn at construction, supplied as a parameter here. -/
structure FeatureState where
  id : String
  feature_type : String
  properties : JVal
  geometry : JVal
deriving Repr

/-- `self.required_keys` as set in `Feature.__init__`. -/
def required_keys : List String := ["type", "properties", "geometry"]

/-- `Feature.load_json_object(self, obj)`.

The first check (`"type" not in obj or obj["type"] != "Feature"`) raises
`KeyError("Missing or invalid required key \"type\"!\n" + str(obj.to_json()))`;
building that message calls `obj.to_json()` on a plain dict, which has no
such attribute, so what actually escapes is
`AttributeError("'dict' object has no attribute 'to_json'")` — modelled as
`.attributeError "to_json"`.  The second check reports the missing keys of
`required_keys` in a `FeatureException`.  On success `properties` and
`geometry` are copied verbatim from `obj`. -/
def Feature.load_json_object (self : FeatureState) (obj : RawObj) :
    Except PyError FeatureState :=
  match obj.lookup "type" with
  | some (.str "Feature") =>
    let missing_keys := required_keys.filter (fun k => (obj.lookup k).isNone)
    if missing_keys.isEmpty then
      .ok { self with
              properties := (obj.lookup "properties").getD .null,
              geometry := (obj.lookup "geometry").getD .null }
    else
      .error (.featureException
        ("Missing or invalid required key(s) [" ++ String.intercalate ", " missing_keys ++ "]!"))
  | _ => .error (.attributeError "to_json")

/-- `Feature.__init__(self, obj, f_type)`: build the bare state, then load
`obj` into it when one is supplied. -/
def Feature.new (newId : String) (f_type : String) (obj : Option RawObj) :
    Except PyError FeatureState :=
  let self : FeatureState :=
    { id := newId
      feature_type := f_type
      properties := .obj []
      geometry := .obj [("type", .str f_type), ("coordinates", .arr [])] }
  match obj with
  | none => .ok self
  | some o => Feature.load_json_object self o

/-- `Point.create(cls, x, y)`: a fresh bare point whose coordinate list
receives `x` then `y`. -/
def Point.create (newId : String) (x y : JVal) : FeatureState :=
  { id := newId
    feature_type := FeatureType.POINT
    properties := .obj []
    geometry := .obj [("type", .str FeatureType.POINT), ("coordinates", .arr [x, y])] }

/-- `Point.__init__(self, obj)`: load via the base class, then (when `obj`
is given) call `self.create(*obj["geometry"]["coordinates"])`.  The result
of that call is discarded, but the call itself raises a `TypeError` unless
the unpacked coordinates are exactly two, a `KeyError`/`TypeError` when the
path `obj["geometry"]["coordinates"]` cannot be read. -/
def Point.new (newId : String) (obj : Option RawObj) : Except PyError FeatureState := do
  let self ← Feature.new newId FeatureType.POINT obj
  match obj with
  | none => .ok self
  | some o =>
    match o.lookup "geometry" with
    | none => .error (.keyError "geometry")
    | some (.obj g) =>
      match g.lookup "coordinates" with
      | none => .error (.keyError "coordinates")
      | some (.arr [_, _]) => .ok self
      | some (.arr _) => .error (.typeError "create() takes 3 positional arguments")
      | some _ => .error (.typeError "argument after * must be an iterable")
    | some _ => .error (.typeError "value is not subscriptable")

/-- `MultiPoint.__init__`: the base `Feature` state with tag `MultiPoint`
(the `MultiFeature` extras `_type`/`features` are modelled separately in
`MultiFeatureState`). -/
def MultiPoint.new (newId : String) (obj : Option RawObj) : Except PyError FeatureState :=
  Feature.new newId FeatureType.MULTI_POINT obj

/-- `LineString.__init__`. -/
def LineString.new (newId : String) (obj : Option RawObj) : Except PyError FeatureState :=
  Feature.new newId FeatureType.LINE_STRING obj

/-- `MultiLineString.__init__`. -/
def MultiLineString.new (newId : String) (obj : Option RawObj) : Except PyError FeatureState :=
  Feature.new newId FeatureType.MULTI_LINE_STRING obj

/-- `Polygon.__init__`. -/
def Polygon.new (newId : String) (obj : Option RawObj) : Except PyError FeatureState :=
  Feature.new newId FeatureType.POLYGON obj

/-- `MultiPolygon.__init__`. -/
def MultiPolygon.new (newId : String) (obj : Option RawObj) : Except PyError FeatureState :=
  Feature.new newId FeatureType.MULTI_POLYGON obj

/-- `GeometryCollection.__init__` base state (its `geometries` list is
modelled in `GeomCollState`). -/
def GeometryCollection.new (newId : String) (obj : Option RawObj) : Except PyError FeatureState :=
  Feature.new newId FeatureType.GEOMETRY_COLLECTION obj

/-- The result of `convert_feature`: which concrete Python class was
instantiated, and the attribute state of the instance. -/
structure ConvResult where
  cls : PyClass
  state : FeatureState
deriving Repr

/-- `convert_feature(feature)`: `None` yields a bare `Feature`; otherwise
the tag `feature["geometry"]["type"]` selects the class to construct.  The
`MultiPolygon` branch of the source constructs a `Polygon`
(`elif f_type == FeatureType.MULTI_POLYGON: return Polygon(feature)`), and
an unrecognized tag falls through to a bare `Feature`. -/
def convert_feature (newId : String) (feature : JVal) : Except PyError ConvResult :=
  match feature with
  | .null => (Feature.new newId "" none).map (fun s => ⟨.feature, s⟩)
  | .obj o =>
    match o.lookup "geometry" with
    | none => .error (.keyError "geometry")
    | some (.obj g) =>
      match g.lookup "type" with
      | none => .error (.keyError "type")
      | some (.str f_type) =>
        if f_type == FeatureType.POINT then
          (Point.new newId (some o)).map (fun s => ⟨.point, s⟩)
        else if f_type == FeatureType.MULTI_POINT then
          (MultiPoint.new newId (some o)).map (fun s => ⟨.multiPoint, s⟩)
        else if f_type == FeatureType.LINE_STRING then
          (LineString.new newId (some o)).map (fun s => ⟨.lineString, s⟩)
        else if f_type == FeatureType.MULTI_LINE_STRING then
          (MultiLineString.new newId (some o)).map (fun s => ⟨.multiLineString, s⟩)
        else if f_type == FeatureType.POLYGON then
          (Polygon.new newId (some o)).map (fun s => ⟨.polygon, s⟩)
        else if f_type == FeatureType.MULTI_POLYGON then
          (Polygon.new newId (some o)).map (fun s => ⟨.polygon, s⟩)
        else if f_type == FeatureType.GEOMETRY_COLLECTION then
          (GeometryCollection.new newId (some o)).map (fun s => ⟨.geometryCollection, s⟩)
        else
          (Feature.new newId "" none).map (fun s => ⟨.feature, s⟩)
      | some _ => (Feature.new newId "" none).map (fun s => ⟨.feature, s⟩)
    | some _ => .error (.typeError "value is not subscriptable")
  | _ => .error (.typeError "value is not subscriptable")

/-! ## The GeoJSON container -/

/-- The attribute state of a `GeoJSON` instance. -/
structure GeoJSONState where
  type : String
  features : List FeatureState
  aliases : List (String × String)
deriving Repr

/-- `GeoJSON.__init__` before any loading. -/
def GeoJSON.empty : GeoJSONState :=
  { type := "FeatureCollection", features := [], aliases := [] }

/-- CPython list indexing for `int` keys: non-negative indices count from
the front, negative indices from the back, and anything out of range
raises `IndexError`. -/
def pyListGet {α : Type} (l : List α) (i : Int) : Option α :=
  if 0 ≤ i then
    l.get? i.toNat
  else if (l.length : Int) + i < 0 then
    none
  else
    l.get? ((l.length : Int) + i).toNat

/-- `GeoJSON.__getitem__(self, key)`: `self.features[key]`, with
`IndexError` caught and turned into `None`. -/
def GeoJSON.getitem (self : GeoJSONState) (key : Int) : Option FeatureState :=
  pyListGet self.features key

/-- The argument handed to `GeoJSON.count`: in practice a feature-type tag
string (the `FeatureType` class constants are strings), or an actual
instance of the `FeatureType` class. -/
inductive CountArg where
  | str (s : String)
  | ftInstance
deriving Repr, DecidableEq

/-- `GeoJSON.count(self, _type)`: the guard `isinstance(_type, FeatureType)`
is `False` for every string (the tags are strings, not `FeatureType`
instances), so every tag argument raises the `TypeError`; an actual
`FeatureType()` instance passes the guard and then
`f.feature_type == _type` compares a string against the instance. -/
def GeoJSON.count (self : GeoJSONState) (t : CountArg) : Except PyError Nat :=
  match t with
  | .str _ => .error (.typeError "Type must be of type FeatureType!")
  | .ftInstance =>
    .ok (self.features.filter (fun f => pyEq (.str f.feature_type) .ftInst)).length

/-- `GeoJSON.at_id(self, _id)`: the comprehension filters on `f.id == id`,
where `id` resolves to the global built-in function `id` (the parameter is
named `_id`), so a string id never matches; then `[0]` indexes the
comprehension result, raising `IndexError` when it is empty. -/
def GeoJSON.at_id (self : GeoJSONState) (_id : String) : Except PyError FeatureState :=
  match self.features.filter (fun f => pyEq (.str f.id) (.builtinFn "id")) with
  | [] => .error (.indexError "list index out of range")
  | f :: _ => .ok f

/-- `GeoJSON.load_json_object(self, obj)`: validate the `type`
discriminant, then convert each element of `obj["features"]` through
`convert_feature` and append it; `fresh` supplies the uuid drawn for the
`n`-th converted feature. -/
def GeoJSON.load_json_object (fresh : Nat → String) (self : GeoJSONState) (obj : RawObj) :
    Except PyError GeoJSONState :=
  match obj.lookup "type" with
  | some (.str "FeatureCollection") =>
    match obj.lookup "features" with
    | none => .error (.keyError "features")
    | some (.arr fs) =>
      (convertAll fresh 0 fs).map (fun cs => { self with features := self.features ++ cs })
    | some _ => .error (.typeError "object is not iterable")
  | _ => .error (.geoJSONException "Missing or invalid required key \"type\"!")
where
  /-- `for feature in obj["features"]: self.features.append(convert_feature(feature))`. -/
  convertAll (fresh : Nat → String) : Nat → List JVal → Except PyError (List FeatureState)
    | _, [] => .ok []
    | n, f :: t => do
      let c ← convert_feature (fresh n) f
      let rest ← convertAll fresh (n + 1) t
      .ok (c.state :: rest)

/-! ## MultiFeature `add` / `remove` -/

/-- The `MultiFeature`-specific attributes: `self._type` (the feature-type
tag string handed to `__init__`, e.g. `FeatureType.MULTI_POINT`) and
`self.features`.  The children appended by `add` are tracked by their
Python class. -/
structure MultiFeatureState where
  typeTag : String
  features : List PyClass
deriving Repr

/-- CPython `list.remove(x)`: drop the first occurrence, `ValueError` when
`x` is absent. -/
def pyListRemove (l : List PyClass) (x : PyClass) : Except PyError (List PyClass) :=
  if l.contains x then .ok (l.erase x) else .error (.valueError "list.remove(x): x not in list")

/-- `MultiFeature.add(self, obj)`: the guard is
`isinstance(obj, self._type)` with `self._type` a string, so the
`isinstance` call itself raises a `TypeError` before anything else runs.
(The intended message would have been
`"Expected a %s object!" % type(self._type).__name__`, i.e.
`"Expected a str object!"`.) -/
def MultiFeature.add (self : MultiFeatureState) (objCls : PyClass) :
    Except PyError MultiFeatureState :=
  match pyIsinstance objCls (.pyStr self.typeTag) with
  | .error e => .error e
  | .ok true => .ok { self with features := self.features ++ [objCls] }
  | .ok false => .error (.typeError "Expected a str object!")

/-- `MultiFeature.remove(self, obj)`: same (always-raising) guard, then
`self.features.remove(obj)`. -/
def MultiFeature.remove (self : MultiFeatureState) (objCls : PyClass) :
    Except PyError MultiFeatureState :=
  match pyIsinstance objCls (.pyStr self.typeTag) with
  | .error e => .error e
  | .ok true => (pyListRemove self.features objCls).map (fun fs => { self with features := fs })
  | .ok false => .error (.typeError "Expected a str object!")

/-! ## GeometryCollection -/

/-- The attribute state of a `GeometryCollection` instance: the base
`Feature` attributes plus the dedicated `self.geometries` list of child
`Feature` objects. -/
structure GeomCollState where
  id : String
  properties : JVal
  geometry : JVal
  geometries : List FeatureState
deriving Repr

/-- An argument to `GeometryCollection.create`: either an
already-constructed `Feature` instance, or a raw JSON value to be run
through `convert_feature`. -/
inductive GCArg where
  | feat (f : FeatureState)
  | raw (v : JVal)
deriving Repr

/-- The loop body of `GeometryCollection.create`: `Feature` instances are
appended directly, anything else goes through `convert_feature` first
(`fresh n` is the uuid drawn for the `n`-th conversion). -/
def GeometryCollection.buildGeometries (fresh : Nat → String) :
    Nat → List GCArg → Except PyError (List FeatureState)
  | _, [] => .ok []
  | n, .feat f :: t => do
    let rest ← GeometryCollection.buildGeometries fresh n t
    .ok (f :: rest)
  | n, .raw v :: t => do
    let c ← convert_feature (fresh n) v
    let rest ← GeometryCollection.buildGeometries fresh (n + 1) t
    .ok (c.state :: rest)

/-- `GeometryCollection.create(cls, *features)`: a bare instance (uuid
`fresh 0`) whose `geometries` list collects the arguments. -/
def GeometryCollection.create (fresh : Nat → String) (args : List GCArg) :
    Except PyError GeomCollState := do
  let gs ← GeometryCollection.buildGeometries fresh 1 args
  .ok { id := fresh 0
        properties := .obj []
        geometry := .obj [("type", .str FeatureType.GEOMETRY_COLLECTION), ("coordinates", .arr [])]
        geometries := gs }

/-- `feature.geometry["coordinates"]` for a child of a
`GeometryCollection`: `none` when the geometry is not a dict or has no
`coordinates` key (the source would raise there). -/
def childCoordinates (f : FeatureState) : Option JVal :=
  match f.geometry with
  | .obj kvs => kvs.lookup "coordinates"
  | _ => none

/-- One element of the `geometries` comprehension in
`GeometryCollection.to_json`:
`{ "type": feature.feature_type, "coordinates": feature.geometry["coordinates"] }`. -/
def childGeometryJson (f : FeatureState) : Except PyError JVal :=
  match childCoordinates f with
  | some c => .ok (.obj [("type", .str f.feature_type), ("coordinates", c)])
  | none => .error (.keyError "coordinates")

/-- The `geometries` list comprehension of `GeometryCollection.to_json`. -/
def childrenJson : List FeatureState → Except PyError (List JVal)
  | [] => .ok []
  | f :: t => do
    let c ← childGeometryJson f
    let rest ← childrenJson t
    .ok (c :: rest)

/-- `GeometryCollection.to_json(self)`. -/
def GeometryCollection.to_json (self : GeomCollState) : Except PyError JVal := do
  let children ← childrenJson self.geometries
  .ok (.obj
    [("type", .str "Feature"),
     ("id", .str self.id),
     ("properties", self.properties),
     ("geometry", .obj
       [("type", .str "GeometryCollection"),
        ("geometries", .arr children)])])

/-! ## soft_update -/

/-- A successful dict lookup returns a structurally smaller value. -/
theorem lookup_sizeOf_lt : ∀ (l : RawObj) (k : String) (v : JVal),
    l.lookup k = some v → sizeOf v < sizeOf l := by
  intro l
  induction l with
  | nil => intro k v h; simp [List.lookup] at h
  | cons hd t ih =>
    intro k v h
    obtain ⟨k0, v0⟩ := hd
    rw [List.lookup] at h
    by_cases hk : (k == k0) = true
    · rw [hk] at h
      cases h
      simp only [List.cons.sizeOf_spec, Prod.mk.sizeOf_spec]
      omega
    · rw [Bool.not_eq_true] at hk
      rw [hk] at h
      have := ih k v h
      simp only [List.cons.sizeOf_spec, Prod.mk.sizeOf_spec]
      omega

/-- The keys of a dict, in insertion order. -/
def keysOf (l : RawObj) : List String := l.map Prod.fst

/-- Python `key in obj` on a dict (equivalently: lookup succeeds). -/
def containsKey (l : RawObj) (k : String) : Bool := (l.lookup k).isSome

/-- `obj_a.keys() | obj_b.keys()`, ordered deterministically here as A's
keys followed by B's keys not in A (the Python set union is unordered; the
claims compare the results as mappings). -/
def unionKeys (a b : RawObj) : List String :=
  keysOf a ++ (keysOf b).filter (fun k => !containsKey a k)

mutual

/-- `soft_update(obj_a, obj_b)`: iterate over the union of the key sets,
computing each key's merged value. -/
def soft_update (a b : RawObj) : RawObj :=
  mergeKeys a b (unionKeys a b)
termination_by (sizeOf a + sizeOf b, 2, 0)

/-- The loop `for key in obj_a.keys() | obj_b.keys(): obj[key] = ...` of
`soft_update`, over an explicit key list. -/
def mergeKeys (a b : RawObj) : List String → RawObj
  | [] => []
  | k :: ks => (k, mergeVal a b k) :: mergeKeys a b ks
termination_by ks => (sizeOf a + sizeOf b, 1, ks.length)

/-- The per-key merge rule of `soft_update`: when both values are dicts,
recursively merge; else when the key is in `obj_b`, `obj_b`'s value wins;
else `obj_a`'s value.  (The `none, none` arm is unreachable for keys drawn
from the union.) -/
def mergeVal (a b : RawObj) (k : String) : JVal :=
  match ha : a.lookup k, hb : b.lookup k with
  | some (.obj oa), some (.obj ob) => .obj (soft_update oa ob)
  | _, some vb => vb
  | some va, none => va
  | none, none => .null
termination_by (sizeOf a + sizeOf b, 0, 0)
decreasing_by
  have h1 := lookup_sizeOf_lt a k _ ha
  have h2 := lookup_sizeOf_lt b k _ hb
  simp only [JVal.obj.sizeOf_spec] at h1 h2
  apply Prod.Lex.left
  omega

end

theorem keysOf_contains (l : RawObj) (k : String) :
    (keysOf l).contains k = containsKey l k := by
  induction l with
  | nil => rfl
  | cons hd t ih =>
    obtain ⟨k0, v0⟩ := hd
    by_cases hk : (k == k0) = true <;>
      simp [keysOf, containsKey, List.lookup, List.contains_cons, hk] at * <;>
      simpa [containsKey] using ih

theorem contains_append (xs ys : List String) (k : String) :
    (xs ++ ys).contains k = (xs.contains k || ys.contains k) := by
  induction xs with
  | nil => simp
  | cons x xs ih => simp [List.contains_cons, ih, Bool.or_assoc]

theorem mergeKeys_cons (a b : RawObj) (k : String) (ks : List String) :
    mergeKeys a b (k :: ks) = (k, mergeVal a b k) :: mergeKeys a b ks := by
  simp [mergeKeys]

theorem unionKeys_contains (a b : RawObj) (k : String) :
    (unionKeys a b).contains k = (containsKey a k || containsKey b k) := by
  unfold unionKeys
  rw [contains_append, keysOf_contains]
  cases hca : containsKey a k
  · simp only [Bool.false_or]
    cases hcb : containsKey b k
    · rw [Bool.eq_false_iff]
      intro hc
      have hmem : k ∈ (keysOf b).filter (fun x => !containsKey a x) := List.elem_iff.mp hc
      rw [List.mem_filter] at hmem
      have hkb : (keysOf b).contains k = true := List.elem_iff.mpr hmem.1
      rw [keysOf_contains, hcb] at hkb
      exact Bool.false_ne_true hkb
    · apply List.elem_iff.mpr
      rw [List.mem_filter]
      refine ⟨?_, by simp [hca]⟩
      exact List.elem_iff.mp (show (keysOf b).contains k = true by rw [keysOf_contains, hcb])
  · simp

theorem mergeKeys_lookup (a b : RawObj) : ∀ (ks : List String) (k : String),
    (mergeKeys a b ks).lookup k = if ks.contains k then some (mergeVal a b k) else none := by
  intro ks
  induction ks with
  | nil => intro k; simp [mergeKeys, List.lookup]
  | cons k0 ks ih =>
    intro k
    rw [mergeKeys_cons, List.lookup]
    by_cases hk : (k == k0) = true
    · have hkk : k = k0 := eq_of_beq hk
      subst hkk
      simp [hk, List.contains_cons]
    · rw [Bool.not_eq_true] at hk
      rw [hk]
      simp only [ih, List.contains_cons, hk, Bool.false_or]

theorem mergeVal_eq (a b : RawObj) (k : String) :
    mergeVal a b k =
      match a.lookup k, b.lookup k with
      | some (.obj oa), some (.obj ob) => .obj (soft_update oa ob)
      | _, some vb => vb
      | some va, none => va
      | none, none => .null := by
  rw [mergeVal.eq_def]
  split
  · rename_i oa ob ha hb
    rw [ha, hb]
  · rename_i vb hb hside
    rw [hb]
    cases hA : List.lookup k a with
    | none => rfl
    | some va =>
      cases va <;> try rfl
      cases vb <;> try rfl
      exact (hside _ _ hA rfl).elim
  · rename_i va ha hb
    rw [ha, hb]
    cases va <;> rfl
  · rename_i ha hb
    rw [ha, hb]

theorem soft_update_lookup (a b : RawObj) (k : String) :
    (soft_update a b).lookup k =
      match a.lookup k, b.lookup k with
      | some (.obj oa), some (.obj ob) => some (.obj (soft_update oa ob))
      | _, some vb => some vb
      | some va, none => some va
      | none, none => none := by
  rw [show soft_update a b = mergeKeys a b (unionKeys a b) from by rw [soft_update]]
  rw [mergeKeys_lookup, unionKeys_contains]
  cases ha : a.lookup k with
  | none =>
    cases hb : b.lookup k with
    | none => simp [containsKey, ha, hb]
    | some vb => simp [containsKey, ha, hb, mergeVal_eq]
  | some va =>
    cases hb : b.lookup k with
    | none => simp [containsKey, ha, hb, mergeVal_eq]
    | some vb => cases va <;> cases vb <;> simp [containsKey, ha, hb, mergeVal_eq]

/-! ## Helper lemmas -/

/-- `setKey` binds the written key. -/
theorem setKey_lookup_self (base : RawObj) (k : String) (v : JVal) :
    (setKey base k v).lookup k = some v := by
  induction base with
  | nil => simp [setKey, List.lookup]
  | cons hd t ih =>
    obtain ⟨k0, v0⟩ := hd
    by_cases h : k0 = k
    · subst h
      simp [setKey, List.lookup]
    · have hb : (k == k0) = false := beq_eq_false_iff_ne.mpr (Ne.symm h)
      have hb0 : (k0 == k) = false := beq_eq_false_iff_ne.mpr h
      simp [setKey, List.lookup, hb0, hb, ih]

/-- `setKey` leaves every other key unchanged. -/
theorem setKey_lookup_other (base : RawObj) (k : String) (v : JVal) (k' : String)
    (h : k' ≠ k) : (setKey base k v).lookup k' = base.lookup k' := by
  induction base with
  | nil => simp [setKey, List.lookup, beq_eq_false_iff_ne.mpr h]
  | cons hd t ih =>
    obtain ⟨k0, v0⟩ := hd
    by_cases h0 : k0 = k
    · subst h0
      simp [setKey, List.lookup, beq_eq_false_iff_ne.mpr h]
    · by_cases h1 : k' = k0
      · subst h1
        have hb0 : (k' == k) = false := beq_eq_false_iff_ne.mpr h
        simp [setKey, List.lookup, beq_eq_false_iff_ne.mpr h0, hb0]
      · have hbk : (k' == k0) = false := beq_eq_false_iff_ne.mpr h1
        simp [setKey, List.lookup, beq_eq_false_iff_ne.mpr h0, hbk, ih]

/-- When every child's geometry carries coordinates, the `geometries`
comprehension succeeds and emits exactly `{type, coordinates}` per child. -/
theorem childrenJson_ok (l : List FeatureState)
    (h : ∀ f ∈ l, (childCoordinates f).isSome = true) :
    childrenJson l = .ok (l.map (fun f =>
      JVal.obj [("type", .str f.feature_type),
                ("coordinates", (childCoordinates f).getD .null)])) := by
  induction l with
  | nil => rfl
  | cons f t ih =>
    have hf := h f (List.mem_cons_self f t)
    have ht := ih (fun x hx => h x (List.mem_cons_of_mem f hx))
    cases hc : childCoordinates f with
    | none => rw [hc] at hf; simp at hf
    | some c =>
      simp only [childrenJson, childGeometryJson, hc, ht, List.map_cons]
      rfl

/-! ## Claim theorems -/

/-- C1 (code bug): on a well-formed raw feature whose `geometry.type` is
`"MultiPolygon"`, `convert_feature` constructs a `Polygon` instance (fixed
tag `"Polygon"`), not a `MultiPolygon`; a recognized tag such as `"Point"`
yields its matching variant, and a `null` input or an unrecognized tag
yields the bare, empty, type-less `Feature` without raising. -/
theorem convert_feature_c1_multipolygon_bug :
    convert_feature "id0" (JVal.obj
      [("type", .str "Feature"), ("properties", .obj []),
       ("geometry", .obj [("type", .str "MultiPolygon"), ("coordinates", .arr [])])])
      = .ok ⟨.polygon,
          { id := "id0", feature_type := "Polygon", properties := .obj [],
            geometry := .obj [("type", .str "MultiPolygon"), ("coordinates", .arr [])] }⟩
    ∧ PyClass.polygon ≠ PyClass.multiPolygon
    ∧ convert_feature "id1" (JVal.obj
      [("type", .str "Feature"), ("properties", .obj []),
       ("geometry", .obj [("type", .str "Point"), ("coordinates", .arr [.num 1, .num 2])])])
      = .ok ⟨.point,
          { id := "id1", feature_type := "Point", properties := .obj [],
            geometry := .obj [("type", .str "Point"), ("coordinates", .arr [.num 1, .num 2])] }⟩
    ∧ convert_feature "id2" JVal.null
      = .ok ⟨.feature,
          { id := "id2", feature_type := "", properties := .obj [],
            geometry := .obj [("type", .str ""), ("coordinates", .arr [])] }⟩
    ∧ convert_feature "id3" (JVal.obj
      [("type", .str "Feature"), ("properties", .obj []),
       ("geometry", .obj [("type", .str "Banana"), ("coordinates", .arr [])])])
      = .ok ⟨.feature,
          { id := "id3", feature_type := "", properties := .obj [],
            geometry := .obj [("type", .str ""), ("coordinates", .arr [])] }⟩ :=
  ⟨rfl, by decide, rfl, rfl, rfl⟩

/-- C2: `soft_update(A, B)` is the mapping over the union of the keys of
`A` and `B` in which a key that is a nested object in both maps to the
recursive merge of the two sub-objects, a key present in both otherwise
maps to `B`'s value, and a key present in only one maps to that one's
value; in particular
`soft_update({options:{a:1,b:2}}, {options:{b:3,c:4}})` equals
`{options:{a:1,b:3,c:4}}`. -/
theorem soft_update_c2_correct :
    (∀ (a b : RawObj) (k : String),
      (soft_update a b).lookup k =
        match a.lookup k, b.lookup k with
        | some (.obj oa), some (.obj ob) => some (.obj (soft_update oa ob))
        | _, some vb => some vb
        | some va, none => some va
        | none, none => none)
    ∧ soft_update [("options", .obj [("a", .num 1), ("b", .num 2)])]
        [("options", .obj [("b", .num 3), ("c", .num 4)])]
      = [("options", .obj [("a", .num 1), ("b", .num 3), ("c", .num 4)])] :=
  ⟨soft_update_lookup,
   by simp [soft_update, mergeKeys, mergeVal, unionKeys, keysOf, containsKey, List.lookup]⟩

/-- C3 counterexample: `compact_options` with the arguments
`a=None, b=0, c="", d=[], e={}, f=False, g="x", h=1` keeps the falsy
non-null entries (`b`, `c`, `d`, `e`, `f`), so its output is neither
`{g:"x", h:1}` nor `{g:"x", h:1, b:0, f:false}` — for instance the key
`"c"` is bound in the output but absent from both candidate mappings. -/
theorem compact_options_c3_counterexample :
    (compact_options [("a", JVal.null), ("b", .num 0), ("c", .str ""), ("d", .arr []),
        ("e", .obj []), ("f", .bool false), ("g", .str "x"), ("h", .num 1)]).lookup "c"
      = some (.str "")
    ∧ ([("g", JVal.str "x"), ("h", JVal.num 1)] : RawObj).lookup "c" = none
    ∧ ([("g", JVal.str "x"), ("h", JVal.num 1), ("b", JVal.num 0),
        ("f", JVal.bool false)] : RawObj).lookup "c" = none
    ∧ compact_options [("a", JVal.null), ("b", .num 0), ("c", .str ""), ("d", .arr []),
        ("e", .obj []), ("f", .bool false), ("g", .str "x"), ("h", .num 1)]
      ≠ [("g", JVal.str "x"), ("h", JVal.num 1)]
    ∧ compact_options [("a", JVal.null), ("b", .num 0), ("c", .str ""), ("d", .arr []),
        ("e", .obj []), ("f", .bool false), ("g", .str "x"), ("h", .num 1)]
      ≠ [("g", JVal.str "x"), ("h", JVal.num 1), ("b", JVal.num 0), ("f", JVal.bool false)] := by
  refine ⟨rfl, rfl, rfl, ?_, ?_⟩
  · intro h
    exact absurd (congrArg List.length h) (by decide)
  · intro h
    exact absurd (congrArg List.length h) (by decide)

/-- C3 amended: `compact_options(a=None, b=0, c="", d=[], e={}, f=False,
g="x", h=1)` yields exactly `{b:0, c:"", d:[], e:{}, f:false, g:"x", h:1}`:
only `None`-valued arguments are omitted, every other falsy value is kept
(and dict values are recursively cleaned of their `None` sub-entries). -/
theorem compact_options_c3_amended :
    compact_options [("a", JVal.null), ("b", .num 0), ("c", .str ""), ("d", .arr []),
        ("e", .obj []), ("f", .bool false), ("g", .str "x"), ("h", .num 1)]
      = [("b", JVal.num 0), ("c", JVal.str ""), ("d", JVal.arr []), ("e", JVal.obj []),
         ("f", JVal.bool false), ("g", JVal.str "x"), ("h", JVal.num 1)] :=
  rfl

/-- C4 counterexample: with `base = {k: 0}` and the falsy value `v = 0`,
`add_not_empty(base, "k", 0)` returns `base` unchanged, so the result does
contain `"k"` bound to `v` although `v` is not truthy — the claimed
if-and-only-if fails for keys already present in `base`. -/
theorem add_not_empty_c4_counterexample :
    truthy (JVal.num 0) = false
    ∧ (add_not_empty [("k", JVal.num 0)] "k" (JVal.num 0)).lookup "k" = some (JVal.num 0) :=
  ⟨rfl, rfl⟩

/-- C4 amended: if `v` is truthy, `add_not_empty(base, k, v)` binds `k` to
`v` and leaves every other key of `base` unchanged; if `v` is falsy
(null/None, empty string, empty array, empty mapping, numeric zero or
false), the result is `base` unchanged — so the result contains `k` if and
only if `v` is truthy whenever `k` is not already bound in `base`. -/
theorem add_not_empty_c4_amended (base : RawObj) (k : String) (v : JVal) :
    (truthy v = true → (add_not_empty base k v).lookup k = some v)
    ∧ (truthy v = false → add_not_empty base k v = base)
    ∧ (∀ k', k' ≠ k → (add_not_empty base k v).lookup k' = base.lookup k')
    ∧ (base.lookup k = none →
        (((add_not_empty base k v).lookup k).isSome = true ↔ truthy v = true)) := by
  refine ⟨?_, ?_, ?_, ?_⟩
  · intro ht
    rw [add_not_empty, if_pos ht]
    exact setKey_lookup_self base k v
  · intro hf
    rw [add_not_empty, if_neg (by rw [hf]; exact Bool.false_ne_true)]
  · intro k' hk
    cases ht : truthy v with
    | true =>
      rw [add_not_empty, if_pos ht]
      exact setKey_lookup_other base k v k' hk
    | false => rw [add_not_empty, if_neg (by rw [ht]; exact Bool.false_ne_true)]
  · intro hnone
    cases ht : truthy v with
    | true =>
      rw [add_not_empty, if_pos ht, setKey_lookup_self base k v]
      simp
    | false =>
      rw [add_not_empty, if_neg (by rw [ht]; exact Bool.false_ne_true), hnone]
      simp

/-- C4 witness: the amended theorem applied at concrete inputs. -/
theorem add_not_empty_c4_witness :
    (add_not_empty [("a", JVal.num 1)] "k" (JVal.str "x")).lookup "q"
      = ([("a", JVal.num 1)] : RawObj).lookup "q" :=
  (add_not_empty_c4_amended [("a", JVal.num 1)] "k" (JVal.str "x")).2.2.1 "q" (by decide)

/-- C5 (code bug): `MultiFeature.add` and `MultiFeature.remove` pass the
stored tag string `self._type` as the second argument of `isinstance`, so
every call — including `add` of a `Point` to a `MultiPoint` — raises the
`isinstance` `TypeError` instead of type-checking against the declared
child type, appending, or removing. -/
theorem multifeature_c5_add_remove_bug :
    (∀ (m : MultiFeatureState) (objCls : PyClass),
        MultiFeature.add m objCls
          = .error (.typeError "isinstance() arg 2 must be a type, a tuple of types, or a union")
      ∧ MultiFeature.remove m objCls
          = .error (.typeError "isinstance() arg 2 must be a type, a tuple of types, or a union"))
    ∧ MultiFeature.add { typeTag := FeatureType.MULTI_POINT, features := [] } .point
        = .error (.typeError "isinstance() arg 2 must be a type, a tuple of types, or a union") :=
  ⟨fun _ _ => ⟨rfl, rfl⟩, rfl⟩

/-- C6 (code bug): `at_id` filters on `f.id == id` where `id` is the
global built-in function, so the comprehension is always empty and
indexing it raises `IndexError` — even when a feature with the supplied id
is present, and for every container and argument. -/
theorem at_id_c6_bug :
    (∀ (g : GeoJSONState) (s : String),
        GeoJSON.at_id g s = .error (.indexError "list index out of range"))
    ∧ GeoJSON.at_id
        { type := "FeatureCollection",
          features := [Point.create "abc" (.num 1) (.num 2)], aliases := [] }
        "abc"
      = .error (.indexError "list index out of range") := by
  refine ⟨?_, rfl⟩
  intro g s
  unfold GeoJSON.at_id
  have hemp : g.features.filter (fun f => pyEq (.str f.id) (.builtinFn "id")) = [] := by
    simp [pyEq]
  rw [hemp]

/-- C7 (code bug): the guard `isinstance(_type, FeatureType)` in
`GeoJSON.count` is false for every string, and all seven recognized tags
are strings (`FeatureType`'s members are string constants), so `count`
raises `TypeError("Type must be of type FeatureType!")` on every
recognized tag instead of returning a count. -/
theorem count_c7_bug :
    (∀ (g : GeoJSONState) (t : String),
        t ∈ [FeatureType.POINT, FeatureType.MULTI_POINT, FeatureType.LINE_STRING,
             FeatureType.MULTI_LINE_STRING, FeatureType.POLYGON, FeatureType.MULTI_POLYGON,
             FeatureType.GEOMETRY_COLLECTION] →
        GeoJSON.count g (.str t) = .error (.typeError "Type must be of type FeatureType!"))
    ∧ GeoJSON.count GeoJSON.empty (.str FeatureType.POINT)
        = .error (.typeError "Type must be of type FeatureType!") :=
  ⟨fun _ _ _ => rfl, rfl⟩

/-- C7 witness: `count` applied to the recognized tag `"MultiPolygon"` on
the empty container raises the type error. -/
theorem count_c7_witness :
    GeoJSON.count GeoJSON.empty (.str "MultiPolygon")
      = .error (.typeError "Type must be of type FeatureType!") :=
  count_c7_bug.1 GeoJSON.empty "MultiPolygon" (by decide)

/-- C8 (code bug): a raw feature object with a missing or non-`"Feature"`
`type` key makes `Feature.load_json_object` evaluate `str(obj.to_json())`
while formatting its `KeyError` message; a plain dict has no `to_json`, so
an `AttributeError` that does not identify the key escapes instead of the
intended structural error.  The missing-`properties`/`geometry` path and
the `FeatureCollection` envelope check do raise key-identifying structural
errors, and every failure is fatal with no partial construction. -/
theorem load_json_c8_bug :
    Feature.load_json_object
        { id := "f0", feature_type := "", properties := .obj [], geometry := .obj [] }
        [("properties", .obj []), ("geometry", .obj [])]
      = .error (.attributeError "to_json")
    ∧ Feature.load_json_object
        { id := "f0", feature_type := "", properties := .obj [], geometry := .obj [] }
        [("type", .str "Foo"), ("properties", .obj []), ("geometry", .obj [])]
      = .error (.attributeError "to_json")
    ∧ Feature.load_json_object
        { id := "f0", feature_type := "", properties := .obj [], geometry := .obj [] }
        [("type", .str "Feature")]
      = .error (.featureException "Missing or invalid required key(s) [properties, geometry]!")
    ∧ GeoJSON.load_json_object (fun _ => "u0") GeoJSON.empty [("type", .str "Foo")]
      = .error (.geoJSONException "Missing or invalid required key \"type\"!")
    ∧ GeoJSON.load_json_object (fun _ => "u0") GeoJSON.empty []
      = .error (.geoJSONException "Missing or invalid required key \"type\"!") :=
  ⟨rfl, rfl, rfl, rfl, rfl⟩

/-- C9: `GeometryCollection.to_json` emits each contained child as
`{type: child.feature_type, coordinates: child.geometry["coordinates"]}`,
discarding the child's own id and properties; in particular
`GeometryCollection.create(Point.create(1,2))` serializes its geometries
as `[{type: "Point", coordinates: [1,2]}]`. -/
theorem geometry_collection_c9_to_json :
    (∀ (gc : GeomCollState),
        (∀ f ∈ gc.geometries, (childCoordinates f).isSome = true) →
        GeometryCollection.to_json gc = .ok (.obj
          [("type", .str "Feature"), ("id", .str gc.id), ("properties", gc.properties),
           ("geometry", .obj
             [("type", .str "GeometryCollection"),
              ("geometries", .arr (gc.geometries.map (fun f =>
                .obj [("type", .str f.feature_type),
                      ("coordinates", (childCoordinates f).getD .null)])))])]))
    ∧ (GeometryCollection.create (fun n => "g" ++ toString n)
          [.feat (Point.create "p0" (.num 1) (.num 2))]).bind GeometryCollection.to_json
        = .ok (.obj
          [("type", .str "Feature"), ("id", .str "g0"), ("properties", .obj []),
           ("geometry", .obj
             [("type", .str "GeometryCollection"),
              ("geometries", .arr [.obj [("type", .str "Point"),
                                         ("coordinates", .arr [.num 1, .num 2])]])])]) := by
  constructor
  · intro gc h
    rw [GeometryCollection.to_json, childrenJson_ok gc.geometries h]
    rfl
  · rfl

/-- C9 witness: the general serialization shape applied to a concrete
one-point collection. -/
theorem geometry_collection_c9_witness :
    GeometryCollection.to_json
      { id := "g", properties := .obj [],
        geometry := .obj [("type", .str "GeometryCollection"), ("coordinates", .arr [])],
        geometries := [Point.create "p" (.num 3) (.num 4)] }
      = .ok (.obj
        [("type", .str "Feature"), ("id", .str "g"), ("properties", .obj []),
         ("geometry", .obj
           [("type", .str "GeometryCollection"),
            ("geometries", .arr [.obj [("type", .str "Point"),
                                       ("coordinates", .arr [.num 3, .num 4])]])])]) :=
  geometry_collection_c9_to_json.1
    { id := "g", properties := .obj [],
      geometry := .obj [("type", .str "GeometryCollection"), ("coordinates", .arr [])],
      geometries := [Point.create "p" (.num 3) (.num 4)] }
    (by decide)

/-- C10: positional indexing on a `GeoJSON` container returns the feature
at the requested position when the (Python-style) integer index is within
range of the feature sequence — non-negative indices count from the
front, valid negative indices (`-len ≤ i < 0`) count from the back — and
returns `None` rather than raising when it is out of range on either
side, including on an empty container.  The three branches cover every
integer index. -/
theorem getitem_c10_correct (g : GeoJSONState) (i : Int) :
    ((0 ≤ i ∧ i < (g.features.length : Int)) →
      GeoJSON.getitem g i = g.features.get? i.toNat
      ∧ (g.features.get? i.toNat).isSome = true)
    ∧ ((-(g.features.length : Int) ≤ i ∧ i < 0) →
      GeoJSON.getitem g i = g.features.get? ((g.features.length : Int) + i).toNat
      ∧ (g.features.get? ((g.features.length : Int) + i).toNat).isSome = true)
    ∧ (((g.features.length : Int) ≤ i ∨ i < -(g.features.length : Int)) →
      GeoJSON.getitem g i = none) := by
  refine ⟨?_, ?_, ?_⟩
  · rintro ⟨h0, hlt⟩
    unfold GeoJSON.getitem pyListGet
    rw [if_pos h0]
    refine ⟨rfl, ?_⟩
    cases hg : g.features.get? i.toNat with
    | none =>
      rw [List.get?_eq_none] at hg
      omega
    | some x => rfl
  · rintro ⟨hge, hlt⟩
    unfold GeoJSON.getitem pyListGet
    rw [if_neg (by omega), if_neg (by omega)]
    refine ⟨rfl, ?_⟩
    cases hg : g.features.get? ((g.features.length : Int) + i).toNat with
    | none =>
      rw [List.get?_eq_none] at hg
      omega
    | some x => rfl
  · intro hout
    unfold GeoJSON.getitem pyListGet
    rcases hout with hge | hlt
    · rw [if_pos (by omega), List.get?_eq_none]
      omega
    · rw [if_neg (by omega), if_pos (by omega)]

/-- C10 witness: front-indexed, back-indexed (`g[-1]` on a one-feature
container) and out-of-range lookups on concrete containers, including the
empty one. -/
theorem getitem_c10_witness :
    GeoJSON.getitem
      { type := "FeatureCollection",
        features := [Point.create "p" (.num 1) (.num 2)], aliases := [] } 0
      = ({ type := "FeatureCollection",
           features := [Point.create "p" (.num 1) (.num 2)],
           aliases := [] } : GeoJSONState).features.get? 0
    ∧ GeoJSON.getitem
      { type := "FeatureCollection",
        features := [Point.create "p" (.num 1) (.num 2)], aliases := [] } (-1)
      = ({ type := "FeatureCollection",
           features := [Point.create "p" (.num 1) (.num 2)],
           aliases := [] } : GeoJSONState).features.get? 0
    ∧ GeoJSON.getitem GeoJSON.empty 0 = none :=
  ⟨((getitem_c10_correct
      { type := "FeatureCollection",
        features := [Point.create "p" (.num 1) (.num 2)], aliases := [] } 0).1
      (by constructor <;> decide)).1,
   ((getitem_c10_correct
      { type := "FeatureCollection",
        features := [Point.create "p" (.num 1) (.num 2)], aliases := [] } (-1)).2.1
      (by constructor <;> decide)).1,
   (getitem_c10_correct GeoJSON.empty 0).2.2 (by left; decide)⟩
